import Mathlib

set_option linter.unnecessarySeqFocus false

/-!
Shallow embedding of the Jukebox repository (devilxcv2/Jukebox) for
specification checking.

Source files embedded:
* `src/backend/jukebox_data.py` — `Track`, `Track.from_dict`, `load_json`,
  `MAX_HISTORY_SIZE`, `AUDIO_EXTS`.
* `src/backend/app.py` — the Flask playback state machine:
  `_play_track_at_index`, `_play_next_track`, `_get_player_status`,
  `_handle_end_reached_event`.
* `src/jukebox_gui.py` — `Jukebox.play_next`, `Jukebox._add_to_history`,
  `Jukebox.add_to_favorites`, `Jukebox.search_song`,
  `Jukebox._on_search_worker_finished`.

Python dynamic values flowing through the persisted JSON files are modelled
by the inductive `PyVal`; Python truthiness by `PyVal.truthy`.  The external
VLC engine and the filesystem are opaque collaborators and are modelled as
oracle records (`Engine`, `FS`) whose answers the theorems quantify over.
-/

namespace Jukebox

/-- JSON-shaped dynamic value, as produced by `json.loads` and stored in the
Track fields.  JSON numbers are modelled as integers (fractional values play
no role in any of the embedded code paths). -/
inductive PyVal where
  | noneV
  | boolV (b : Bool)
  | intV (n : Int)
  | strV (s : String)
  | listV (elems : List PyVal)
  | dictV (fields : List (String × PyVal))
deriving Repr

mutual

/-- Structural (Python `==`) equality on JSON-shaped values. -/
def PyVal.eqb : PyVal → PyVal → Bool
  | .noneV, .noneV => true
  | .boolV a, .boolV b => a == b
  | .intV a, .intV b => a == b
  | .strV a, .strV b => a == b
  | .listV xs, .listV ys => PyVal.eqbItems xs ys
  | .dictV xs, .dictV ys => PyVal.eqbPairs xs ys
  | _, _ => false

def PyVal.eqbItems : List PyVal → List PyVal → Bool
  | [], [] => true
  | x :: xs, y :: ys => PyVal.eqb x y && PyVal.eqbItems xs ys
  | _, _ => false

def PyVal.eqbPairs : List (String × PyVal) → List (String × PyVal) → Bool
  | [], [] => true
  | kv :: xs, kw :: ys =>
      kv.1 == kw.1 && PyVal.eqb kv.2 kw.2 && PyVal.eqbPairs xs ys
  | _, _ => false

end

mutual

theorem PyVal.eq_of_eqb : ∀ {a b : PyVal}, PyVal.eqb a b = true → a = b
  | .noneV, .noneV, _ => rfl
  | .boolV _, .boolV _, h => by
      simp only [PyVal.eqb, beq_iff_eq] at h; rw [h]
  | .intV _, .intV _, h => by
      simp only [PyVal.eqb, beq_iff_eq] at h; rw [h]
  | .strV _, .strV _, h => by
      simp only [PyVal.eqb, beq_iff_eq] at h; rw [h]
  | .listV xs, .listV ys, h => by
      rw [PyVal.eq_of_eqbItems (a := xs) (b := ys) h]
  | .dictV xs, .dictV ys, h => by
      rw [PyVal.eq_of_eqbPairs (a := xs) (b := ys) h]

theorem PyVal.eq_of_eqbItems : ∀ {a b : List PyVal}, PyVal.eqbItems a b = true → a = b
  | [], [], _ => rfl
  | x :: xs, y :: ys, h => by
      simp only [PyVal.eqbItems, Bool.and_eq_true] at h
      rw [PyVal.eq_of_eqb h.1, PyVal.eq_of_eqbItems h.2]

theorem PyVal.eq_of_eqbPairs :
    ∀ {a b : List (String × PyVal)}, PyVal.eqbPairs a b = true → a = b
  | [], [], _ => rfl
  | (k₁, v₁) :: xs, (k₂, v₂) :: ys, h => by
      simp only [PyVal.eqbPairs, Bool.and_eq_true, beq_iff_eq] at h
      rw [h.1.1, PyVal.eq_of_eqb h.1.2, PyVal.eq_of_eqbPairs h.2]

end

mutual

theorem PyVal.eqb_refl : ∀ a : PyVal, PyVal.eqb a a = true
  | .noneV => rfl
  | .boolV b => by simp [PyVal.eqb]
  | .intV n => by simp [PyVal.eqb]
  | .strV s => by simp [PyVal.eqb]
  | .listV xs => PyVal.eqbItems_refl xs
  | .dictV xs => PyVal.eqbPairs_refl xs

theorem PyVal.eqbItems_refl : ∀ a : List PyVal, PyVal.eqbItems a a = true
  | [] => rfl
  | x :: xs => by
      simp only [PyVal.eqbItems, Bool.and_eq_true]
      exact ⟨PyVal.eqb_refl x, PyVal.eqbItems_refl xs⟩

theorem PyVal.eqbPairs_refl : ∀ a : List (String × PyVal), PyVal.eqbPairs a a = true
  | [] => rfl
  | (k, v) :: xs => by
      simp only [PyVal.eqbPairs, Bool.and_eq_true, beq_self_eq_true, true_and]
      exact ⟨PyVal.eqb_refl v, PyVal.eqbPairs_refl xs⟩

end

instance : DecidableEq PyVal := fun a b =>
  decidable_of_iff (PyVal.eqb a b = true)
    ⟨PyVal.eq_of_eqb, fun h => h ▸ PyVal.eqb_refl a⟩

/-- Python truthiness of a JSON-shaped value (`bool(x)`). -/
def PyVal.truthy : PyVal → Bool
  | .noneV => false
  | .boolV b => b
  | .intV n => n != 0
  | .strV s => s != ""
  | .listV [] => false
  | .listV (_ :: _) => true
  | .dictV [] => false
  | .dictV (_ :: _) => true

/-- Python `x is None` on a JSON-shaped value. -/
def PyVal.isNone : PyVal → Bool
  | .noneV => true
  | _ => false

/-- `dict.get(key, default)` on a parsed JSON object.  `json.loads` keeps the
last occurrence of a duplicated key, hence the reversed search. -/
def jget (kvs : List (String × PyVal)) (key : String) (default : PyVal) : PyVal :=
  match kvs.reverse.find? (fun kv => kv.1 == key) with
  | some kv => kv.2
  | none => default

/-- Python `str(x)` for the values that can reach a `Path(str(x))` call in
`Track.from_dict`.  Containers get a marker rendering: their exact CPython
repr never matters because every use feeds an oracle (`FS`) function that the
theorems quantify over. -/
def pyStr : PyVal → String
  | .noneV => "None"
  | .boolV true => "True"
  | .boolV false => "False"
  | .intV n => toString n
  | .strV s => s
  | .listV _ => "<list>"
  | .dictV _ => "<dict>"

/-- `class Track` of `jukebox_data.py`.  Fields hold dynamic (JSON-shaped)
values exactly as the Python attributes do. -/
structure Track where
  url : PyVal
  title : PyVal
  thumbnail_url : PyVal
  duration_sec : PyVal
  is_local : PyVal
  webpage_url : PyVal
deriving Repr, DecidableEq

/-- `Track.__init__`: stores the six fields and, when the track is local and
`webpage_url` is missing/falsy, backfills `webpage_url` with `url`. -/
def mkTrack (url title thumbnail_url duration_sec is_local webpage_url : PyVal) : Track :=
  let wp := if is_local.truthy ∧ ¬ webpage_url.truthy then url else webpage_url
  ⟨url, title, thumbnail_url, duration_sec, is_local, wp⟩

/-- The sentinel `Track(None, "Invalid Track Data")` returned by
`Track.from_dict` for malformed input. -/
def invalidTrack : Track :=
  mkTrack .noneV (.strV "Invalid Track Data") .noneV (.intV 0) (.boolV false) .noneV

/-- Filesystem oracle used by `Track.from_dict`'s heuristics
(`Path(...).is_file()`, `.exists()`, `.resolve()`, `.stem`, `.suffix`). -/
structure FS where
  isFile : String → Bool
  pathExists : String → Bool
  resolve : String → String
  stem : String → String
  suffixLower : String → String

/-- `AUDIO_EXTS` from `jukebox_data.py`. -/
def AUDIO_EXTS : List String :=
  [".mp3", ".flac", ".wav", ".ogg", ".m4a", ".webm", ".opus"]

/-- `MAX_HISTORY_SIZE` from `jukebox_data.py`. -/
def MAX_HISTORY_SIZE : Nat := 50

/-- Shared tail of `Track.from_dict`: builds the `Track` from the migrated
mapping and runs the post-creation cleanup and heuristics.  Returns
`.error ()` when the Python code would raise (`track.url.startswith` on a
non-string url — an `AttributeError` swallowed per-item by `load_json`). -/
def buildTrack (fs : FS) (migrated : List (String × PyVal)) (identifier : PyVal) :
    Except Unit Track :=
  let track := mkTrack
    (jget migrated "url" .noneV)
    (jget migrated "title" (if identifier.truthy then identifier else .strV "Titolo Sconosciuto"))
    (jget migrated "thumbnail_url" .noneV)
    (jget migrated "duration_sec" (.intV 0))
    (jget migrated "is_local" (.boolV false))
    (jget migrated "webpage_url" .noneV)
  -- post 1: if the title equals the identifier and the url is a real file,
  -- use the file's stem as title
  let track :=
    if PyVal.eqb track.title identifier && track.url.truthy then
      if fs.isFile (pyStr track.url) then
        { track with title := .strV (fs.stem (pyStr track.url)) }
      else track
    else track
  -- post 2: final title fallback
  let track :=
    if !track.title.truthy then { track with title := .strV "Titolo Sconosciuto" }
    else track
  -- post 3: is_local heuristic, guarded on the *migrated* mapping's field
  let track :=
    if !(jget migrated "is_local" .noneV).truthy then
      if track.url.truthy then
        if AUDIO_EXTS.contains (fs.suffixLower (pyStr track.url)) &&
            fs.pathExists (pyStr track.url) then
          { track with is_local := .boolV true,
                       url := .strV (fs.resolve (pyStr track.url)) }
        else track
      else track
    else track
  -- post 4: webpage_url consistency
  if track.is_local.truthy && !track.webpage_url.truthy then
    .ok { track with webpage_url := track.url }
  else if !track.is_local.truthy && track.webpage_url.isNone && track.url.truthy then
    match track.url with
    | .strV u => if u.startsWith "http" then .ok { track with webpage_url := track.url }
                else .ok track
    | _ => .error ()   -- AttributeError: non-string has no `startswith`
  else .ok track

/-- `Track.from_dict` of `jukebox_data.py`.  Both the up-front
`isinstance(data, (dict, str, list))` check and the final `else` of the
migration dispatch return the sentinel track; a list shorter than 5 elements
falls through every migration branch into that final `else`. -/
def fromDict (fs : FS) (data : PyVal) : Except Unit Track :=
  match data with
  | .strV s =>
      buildTrack fs
        [("title", .strV s), ("webpage_url", .strV s), ("url", .strV s)] (.strV s)
  | .listV xs =>
      if 5 ≤ xs.length then
        let stream_url := xs.getD 0 .noneV
        let title := xs.getD 1 .noneV
        let thumbnail_url := xs.getD 2 .noneV
        -- `data[3] if data[3] is not None else 0`
        let duration_sec := if (xs.getD 3 .noneV).isNone then PyVal.intV 0 else xs.getD 3 .noneV
        let webpage_url_old := xs.getD 4 .noneV
        buildTrack fs
          [("url", stream_url), ("title", title), ("thumbnail_url", thumbnail_url),
           ("duration_sec", duration_sec), ("webpage_url", webpage_url_old)]
          webpage_url_old
      else .ok invalidTrack
  | .dictV kvs =>
      buildTrack fs kvs (jget kvs "webpage_url" (jget kvs "url" .noneV))
  | _ => .ok invalidTrack

/-! ## Persistence adapter: `load_json` of `jukebox_data.py` -/

/-- Outcome of reading and parsing the persisted file, as observed by
`load_json`: the file may be absent, read as blank after `.strip()`, fail
`json.loads` (or fail reading), or parse to a JSON value. -/
inductive LoadInput where
  | absent
  | empty
  | malformed
  | parsed (raw : PyVal)
deriving Repr

/-- `load_json(name, Track)` of `jukebox_data.py`, with the `Track.from_dict`
normalizer supplied.  A parsed non-list survives only through the one-key-dict
recovery.  Each element is converted through `from_dict` inside a
`try/except`; a raised conversion error skips the element, and a converted
track is kept only when `item.title or item.url` is truthy. -/
def loadJsonTracks (fs : FS) (input : LoadInput) : List Track :=
  match input with
  | .absent => []
  | .empty => []
  | .malformed => []
  | .parsed raw =>
    let rawList : Option (List PyVal) :=
      match raw with
      | .listV xs => some xs
      | .dictV [(_, .listV xs)] => some xs
      | _ => none
    match rawList with
    | none => []
    | some xs =>
        xs.filterMap (fun x =>
          match fromDict fs x with
          | .error _ => none
          | .ok t => if t.title.truthy || t.url.truthy then some t else none)

/-! ## Playback state machine: `src/backend/app.py` -/

/-- `current_media_type`, one of the strings `"none"`, `"playlist"`,
`"webradio"` (the only values the code ever assigns). -/
inductive MediaType where
  | none
  | playlist
  | webradio
deriving Repr, DecidableEq

/-- The VLC player states the embedded code inspects. -/
inductive VlcState where
  | nothingSpecial
  | stopped
  | paused
  | playing
  | ended
deriving Repr, DecidableEq

/-- `current_radio_info`: `{"name": ..., "url_stream": ...}`. -/
structure RadioInfo where
  name : String
  url_stream : String
deriving Repr, DecidableEq

/-- The module-level mutable playback state of `app.py`. -/
structure AppState where
  playlist : List Track
  current_track_index : Int
  is_playing : Bool
  current_media_type : MediaType
  current_radio_info : Option RadioInfo
deriving Repr

/-- Oracle for the external VLC engine, snapshotting the answers the engine
gives during one operation: whether `player` was created at all
(`initialized`), `player.is_playing()`, `player.get_state()`, whether
`vlc_instance.media_new(path)` returns a truthy media object, and whether
`player.play()` returns `!= -1`. -/
structure Engine where
  initialized : Bool
  isPlaying : Bool
  state : VlcState
  mediaNewOk : PyVal → Bool
  playOk : Bool

/-- `_play_track_at_index(index)` of `app.py`.  Returns the new state and the
function's boolean result.  The Python body is exception-free on this model:
every failure path returns `False` after setting `is_playing = False`.
The resume branch's `current_media_type == "playlist"` conjunct is dropped
as it is always true there (the media type was just assigned). -/
def playTrackAtIndex (eng : Engine) (s : AppState) (index : Int) : AppState × Bool :=
  if !eng.initialized then
    ({ s with is_playing := false }, false)
  else
    -- "This function is for playlist tracks, so update media type"
    let s1 : AppState :=
      { s with current_media_type := MediaType.playlist, current_radio_info := none }
    if !(0 ≤ index ∧ index < (s1.playlist.length : Int) : Bool) then
      -- out of bounds: player.stop(); current_track_index = -1
      ({ s1 with current_track_index := -1, is_playing := false }, false)
    else
      let track := s1.playlist.getD index.toNat invalidTrack
      if (eng.isPlaying || eng.state == VlcState.paused) &&
          (s1.current_track_index == index && eng.state == VlcState.paused) then
        -- same paused playlist track: just resume
        if eng.playOk then ({ s1 with is_playing := true }, true)
        else ({ s1 with is_playing := false }, false)
      else
        -- (player.stop() of any previous playback has no logical effect here)
        if !track.url.truthy then
          ({ s1 with is_playing := false }, false)
        else if !eng.mediaNewOk track.url then
          ({ s1 with is_playing := false }, false)
        else if !eng.playOk then
          ({ s1 with is_playing := false }, false)
        else
          ({ s1 with current_track_index := index, is_playing := true }, true)

/-- `_play_next_track` of `app.py`: only meaningful in playlist mode, wraps
past the last index to 0, then delegates to `_play_track_at_index`. -/
def playNextTrack (eng : Engine) (s : AppState) : AppState × Bool :=
  if s.current_media_type ≠ MediaType.playlist then
    ({ s with is_playing := false }, false)
  else if s.playlist.isEmpty then
    ({ s with is_playing := false }, false)
  else
    let ni := s.current_track_index + 1
    let ni := if (s.playlist.length : Int) ≤ ni then 0 else ni
    playTrackAtIndex eng s ni

/-- `_play_previous_track` of `app.py`. -/
def playPreviousTrack (eng : Engine) (s : AppState) : AppState × Bool :=
  if s.current_media_type ≠ MediaType.playlist then
    ({ s with is_playing := false }, false)
  else if s.playlist.isEmpty then
    ({ s with is_playing := false }, false)
  else
    let ni := s.current_track_index - 1
    let ni := if ni < 0 then (s.playlist.length : Int) - 1 else ni
    playTrackAtIndex eng s ni

/-- The status fields of `_get_player_status` that the claims inspect.  The
presentation-only fields (track dict, stream times, volume) are elided. -/
structure PlayerStatus where
  media_type : MediaType
  current_track_index : Int
  is_playing : Bool
  playlist_length : Nat
deriving Repr, DecidableEq

/-- `_get_player_status` of `app.py`: reconciles `is_playing` against the
engine (inside the `if player:` block), then reports media type and index.
Returns the (possibly reconciled) state together with the status snapshot. -/
def getPlayerStatus (eng : Engine) (s : AppState) : AppState × PlayerStatus :=
  let s :=
    if eng.initialized && s.is_playing && !eng.isPlaying then
      { s with is_playing := false }
    else s
  let mtIdx : MediaType × Int :=
    if s.current_media_type == MediaType.webradio && s.current_radio_info.isSome then
      (MediaType.webradio, -1)
    else if s.current_media_type == MediaType.playlist &&
        (0 ≤ s.current_track_index ∧
          s.current_track_index < (s.playlist.length : Int) : Bool) then
      (MediaType.playlist, s.current_track_index)
    else
      (s.current_media_type, -1)
  (s, { media_type := mtIdx.1, current_track_index := mtIdx.2,
        is_playing := s.is_playing, playlist_length := s.playlist.length })

/-- `_handle_end_reached_event` of `app.py`: the MediaPlayerEndReached
callback.  In webradio mode it only logs and returns; in playlist mode it
invokes `_play_next_track(from_event=True)`; otherwise it only logs. -/
def handleEndReached (eng : Engine) (s : AppState) : AppState :=
  if s.current_media_type = MediaType.webradio then s
  else if s.current_media_type = MediaType.playlist then (playNextTrack eng s).1
  else s

/-! ## GUI playback: `Jukebox.play_next` of `src/jukebox_gui.py` -/

/-- The slice of the GUI `Jukebox` state that `play_next` touches:
`self.playlist` and `self.current_idx` (−1 when nothing is playing). -/
structure GuiPlayState where
  playlist : List Track
  current_idx : Int
deriving Repr

/-- `Jukebox.play_next` of `jukebox_gui.py`.  At the end of the playlist it
stops the player (engine effect elided), clears the media info and sets
`current_idx = -1`; otherwise it emits `play_track_signal(next_idx)`,
returned here as the second component. -/
def guiPlayNext (s : GuiPlayState) : GuiPlayState × Option Int :=
  if s.playlist.isEmpty then (s, none)
  else
    let next_idx : Int := if s.current_idx == -1 then 0 else s.current_idx + 1
    if (s.playlist.length : Int) ≤ next_idx then
      ({ s with current_idx := -1 }, none)
    else
      (s, some next_idx)

/-! ## History and favorites: `src/jukebox_gui.py` -/

/-- The identifier used for history/favorites dedup:
`track.webpage_url or track.url`. -/
def identOf (t : Track) : PyVal :=
  if t.webpage_url.truthy then t.webpage_url else t.url

/-- `Jukebox._add_to_history(track)` of `jukebox_gui.py`: drop every entry
sharing the identifier, insert (a copy of) the track at the front, truncate
to `MAX_HISTORY_SIZE`.  (The saved copy of an immutable value is the value
itself.)  A track with no identifier is not recorded. -/
def addToHistory (history : List Track) (track : Track) : List Track :=
  let identifier := identOf track
  if !identifier.truthy then history
  else
    let newHistory := history.filter (fun h => !(PyVal.eqb (identOf h) identifier))
    let withNew := track :: newHistory
    if MAX_HISTORY_SIZE < withNew.length then withNew.take MAX_HISTORY_SIZE
    else withNew

/-- `Jukebox.add_to_favorites` of `jukebox_gui.py`, applied to the current
track (`self.current_track_info`, `none` when nothing is selected): no-op
without a current track or identifier, no-op with a notice on a duplicate
identifier, otherwise append a copy. -/
def addToFavorites (favorites : List Track) (current_track_info : Option Track) :
    List Track :=
  match current_track_info with
  | none => favorites
  | some track =>
    let identifier := identOf track
    if !identifier.truthy then favorites
    else if favorites.any (fun fav => PyVal.eqb (identOf fav) identifier) then favorites
    else favorites ++ [track]

/-! ## Search/download orchestration: `src/jukebox_gui.py` -/

/-- The `YoutubeSearchWorker` as visible to `search_song`: whether its thread
is still running and whether cancellation was requested. -/
structure SearchWorker where
  running : Bool
  cancelRequested : Bool
deriving Repr, DecidableEq

/-- The slice of the GUI state driving the single-flight search/download
category: the global `is_searching` flag and the `yt_search_worker` slot. -/
structure SearchState where
  is_searching : Bool
  yt_search_worker : Option SearchWorker
deriving Repr, DecidableEq

/-- Environment of one `search_song` call: whether the query text is empty
after `.strip()`, and whether the cached-download fast path applies (the
query matched `YOUTUBE_REGEX`, a cached audio file exists and its processing
succeeded — filesystem and regex are external, so this is an oracle bit). -/
structure SearchEnv where
  queryEmpty : Bool
  cacheHit : Bool
deriving Repr, DecidableEq

/-- `Jukebox.search_song` of `jukebox_gui.py`.  Returns the new state and
whether a new search/download worker was started.  While `is_searching` is
set the request is rejected: a running previous worker is asked to cancel
(flag only — it keeps running until it finishes), a dead one resets the
stale flag; either way the function returns without starting a task.  A
cache hit serves the track without any worker.  Otherwise the flag is set
and a fresh running worker is started. -/
def searchSong (env : SearchEnv) (s : SearchState) : SearchState × Bool :=
  if env.queryEmpty then (s, false)
  else if s.is_searching then
    match s.yt_search_worker with
    | some w =>
      if w.running then
        ({ s with yt_search_worker := some { w with cancelRequested := true } }, false)
      else ({ s with is_searching := false }, false)
    | none => ({ s with is_searching := false }, false)
  else if env.cacheHit then (s, false)
  else
    ({ is_searching := true,
       yt_search_worker := some { running := true, cancelRequested := false } }, true)

/-- `Jukebox._on_search_worker_finished` of `jukebox_gui.py`: the single
finalize slot connected to the worker's `finished` signal.  It always clears
`is_searching`, and resets the worker slot only when the sender is still the
worker the slot refers to. -/
def onSearchWorkerFinished (s : SearchState) (senderIsCurrent : Bool) : SearchState :=
  { is_searching := false,
    yt_search_worker := if senderIsCurrent then none else s.yt_search_worker }

/-! ## Helper lemmas on the playback state machine -/

theorem playAt_playlist_eq (eng : Engine) (s : AppState) (i : Int) :
    (playTrackAtIndex eng s i).1.playlist = s.playlist := by
  unfold playTrackAtIndex
  dsimp only
  split_ifs <;> rfl

theorem playAt_of_not_init (eng : Engine) (s : AppState) (i : Int)
    (h : eng.initialized = false) :
    playTrackAtIndex eng s i = ({ s with is_playing := false }, false) := by
  unfold playTrackAtIndex
  rw [h]
  rfl

theorem playAt_mode_of_init (eng : Engine) (s : AppState) (i : Int)
    (h : eng.initialized = true) :
    (playTrackAtIndex eng s i).1.current_media_type = MediaType.playlist ∧
    (playTrackAtIndex eng s i).1.current_radio_info = none := by
  unfold playTrackAtIndex
  simp only [h, Bool.not_true, Bool.false_eq_true, if_false]
  dsimp only
  split_ifs <;> exact ⟨rfl, rfl⟩

theorem playAt_of_success (eng : Engine) (s : AppState) (i : Int)
    (h : (playTrackAtIndex eng s i).2 = true) :
    (playTrackAtIndex eng s i).1.current_track_index = i ∧
    (playTrackAtIndex eng s i).1.is_playing = true ∧
    0 ≤ i ∧ i < (s.playlist.length : Int) ∧ eng.initialized = true := by
  unfold playTrackAtIndex at h ⊢
  dsimp only at h ⊢
  split_ifs at h ⊢ <;> simp_all [Bool.and_eq_true, beq_iff_eq]

theorem playAt_of_fail (eng : Engine) (s : AppState) (i : Int)
    (h : (playTrackAtIndex eng s i).2 = false) :
    (playTrackAtIndex eng s i).1.is_playing = false ∧
    (playTrackAtIndex eng s i).1.current_track_index =
      (if eng.initialized = true ∧ ¬ (0 ≤ i ∧ i < (s.playlist.length : Int)) then -1
       else s.current_track_index) := by
  unfold playTrackAtIndex at h ⊢
  dsimp only at h ⊢
  split_ifs at h ⊢ <;> simp_all <;> omega

/-! ## Concrete fixtures used by witnesses and counterexamples -/

/-- A well-formed remote track. -/
def sampleTrack : Track :=
  mkTrack (.strV "http://example.com/a.mp3") (.strV "A") .noneV (.intV 10) (.boolV false)
    (.strV "http://example.com/watch?v=a")

/-- A track whose `url` is `None`: a bad locator. -/
def noUrlTrack : Track :=
  mkTrack .noneV (.strV "B") .noneV (.intV 0) (.boolV false) (.strV "http://example.com/watch?v=b")

/-- A cooperating engine: player created, currently stopped, accepts media
and `play()`. -/
def engOk : Engine :=
  { initialized := true, isPlaying := false, state := VlcState.stopped,
    mediaNewOk := fun _ => true, playOk := true }

/-- The degraded engine of a failed VLC initialization (`player is None`). -/
def engDead : Engine :=
  { initialized := false, isPlaying := false, state := VlcState.nothingSpecial,
    mediaNewOk := fun _ => false, playOk := false }

/-! ## Claim theorems -/

/-- C1: for every valid index `i`, a `_play_track_at_index(i)` call that the
engine accepts (the call returns `True`; success entails validity of `i`)
followed by `_get_player_status` reports `media_type = "playlist"` and
`current_track_index = i`, whatever engine snapshot the status read sees. -/
theorem playAt_then_status_reports_playlist_and_index (eng₁ eng₂ : Engine)
    (s : AppState) (i : Int) (hok : (playTrackAtIndex eng₁ s i).2 = true) :
    (getPlayerStatus eng₂ (playTrackAtIndex eng₁ s i).1).2.media_type =
      MediaType.playlist ∧
    (getPlayerStatus eng₂ (playTrackAtIndex eng₁ s i).1).2.current_track_index = i := by
  obtain ⟨hidx, hplay, h0, hlen, hinit⟩ := playAt_of_success eng₁ s i hok
  obtain ⟨hmode, hradio⟩ := playAt_mode_of_init eng₁ s i hinit
  have hpl := playAt_playlist_eq eng₁ s i
  unfold getPlayerStatus
  dsimp only
  split_ifs <;> simp_all

/-- C1 witness: playing index 0 of a one-track playlist through a cooperating
engine, the status snapshot reports playlist mode at index 0. -/
theorem playAt_then_status_reports_playlist_and_index_witness :
    (getPlayerStatus engOk
        (playTrackAtIndex engOk
          ⟨[sampleTrack], -1, false, MediaType.none, none⟩ 0).1).2.media_type =
      MediaType.playlist ∧
    (getPlayerStatus engOk
        (playTrackAtIndex engOk
          ⟨[sampleTrack], -1, false, MediaType.none, none⟩ 0).1).2.current_track_index
      = 0 :=
  playAt_then_status_reports_playlist_and_index engOk engOk
    ⟨[sampleTrack], -1, false, MediaType.none, none⟩ 0 (by decide)

/-- C3 counterexample: with a cooperating engine and the in-bounds index 0 of
a playlist whose only track has `url = None` (a bad locator),
`_play_track_at_index(0)` fails (returns `False`) yet leaves
`current_track_index` at 0 instead of setting it to −1 as claimed. -/
theorem playAt_failure_keeps_index_counterexample :
    (playTrackAtIndex engOk ⟨[noUrlTrack], 0, false, MediaType.playlist, none⟩ 0).2
      = false ∧
    (playTrackAtIndex engOk
        ⟨[noUrlTrack], 0, false, MediaType.playlist, none⟩ 0).1.current_track_index
      ≠ -1 := by
  constructor
  · decide
  · decide

/-- C3 (amended): every failing `_play_track_at_index` call sets
`is_playing = False` and returns `False` rather than raising (the embedded
body is total: every Python failure path, the caught exception included,
funnels into a `return False`); `current_track_index` becomes −1 only in the
out-of-bounds case with an initialized player, and is left unchanged on the
other failures (uninitialized player, bad locator, media-creation failure,
engine `play()` refusal). -/
theorem playAt_failure_state (eng : Engine) (s : AppState) (i : Int)
    (h : (playTrackAtIndex eng s i).2 = false) :
    (playTrackAtIndex eng s i).1.is_playing = false ∧
    (playTrackAtIndex eng s i).1.current_track_index =
      (if eng.initialized = true ∧ ¬ (0 ≤ i ∧ i < (s.playlist.length : Int)) then -1
       else s.current_track_index) :=
  playAt_of_fail eng s i h

/-- C3 witness: the failing bad-locator call at the in-bounds index 0. -/
theorem playAt_failure_state_witness :
    (playTrackAtIndex engOk ⟨[noUrlTrack], 5, false, MediaType.playlist, none⟩ 0).1.is_playing
      = false ∧
    (playTrackAtIndex engOk
        ⟨[noUrlTrack], 5, false, MediaType.playlist, none⟩ 0).1.current_track_index =
      (if engOk.initialized = true ∧ ¬ ((0 : Int) ≤ 0 ∧ (0 : Int) < (([noUrlTrack] : List Track).length : Int)) then -1
       else 5) :=
  playAt_failure_state engOk ⟨[noUrlTrack], 5, false, MediaType.playlist, none⟩ 0
    (by decide)

/-- C9 counterexample: when VLC initialization failed (`player is None`),
`_play_track_at_index` returns before touching the media type: invoking it
(reachable through `POST /api/player/play` with a valid `track_index`, which
performs no player check) leaves `current_media_type = "none"` instead of
switching it to `"playlist"`. -/
theorem playAt_uninitialized_keeps_mode_counterexample :
    (playTrackAtIndex engDead
        ⟨[sampleTrack], -1, false, MediaType.none, none⟩ 0).1.current_media_type
      ≠ MediaType.playlist := by
  decide

/-- C9 (amended): with an initialized player, every `_play_track_at_index`
invocation — including out-of-bounds, failing ones — sets
`current_media_type = "playlist"` and clears `current_radio_info` before the
bounds check, so a call made in webradio mode always exits webradio mode and
discards the radio descriptor; with an uninitialized player the call fails
immediately, leaving the mode and descriptor untouched. -/
theorem playAt_sets_playlist_mode_first (eng : Engine) (s : AppState) (i : Int) :
    (eng.initialized = true →
      (playTrackAtIndex eng s i).1.current_media_type = MediaType.playlist ∧
      (playTrackAtIndex eng s i).1.current_radio_info = none) ∧
    (eng.initialized = false →
      playTrackAtIndex eng s i = ({ s with is_playing := false }, false)) :=
  ⟨playAt_mode_of_init eng s i, playAt_of_not_init eng s i⟩

/-- C9 witness: an out-of-bounds, failing call made in webradio mode on an
initialized engine still switches to playlist mode and drops the radio
descriptor; the same call on an uninitialized engine only clears
`is_playing`. -/
theorem playAt_sets_playlist_mode_first_witness :
    ((playTrackAtIndex engOk
        ⟨[sampleTrack], -1, true, MediaType.webradio, some ⟨"R", "http://r"⟩⟩ 7).1.current_media_type
      = MediaType.playlist ∧
     (playTrackAtIndex engOk
        ⟨[sampleTrack], -1, true, MediaType.webradio, some ⟨"R", "http://r"⟩⟩ 7).1.current_radio_info
      = none) ∧
    playTrackAtIndex engDead
        ⟨[sampleTrack], -1, true, MediaType.webradio, some ⟨"R", "http://r"⟩⟩ 7 =
      ({ playlist := [sampleTrack], current_track_index := -1, is_playing := false,
         current_media_type := MediaType.webradio,
         current_radio_info := some ⟨"R", "http://r"⟩ }, false) :=
  ⟨(playAt_sets_playlist_mode_first engOk
      ⟨[sampleTrack], -1, true, MediaType.webradio, some ⟨"R", "http://r"⟩⟩ 7).1 rfl,
   (playAt_sets_playlist_mode_first engDead
      ⟨[sampleTrack], -1, true, MediaType.webradio, some ⟨"R", "http://r"⟩⟩ 7).2 rfl⟩

/-- C7: the MediaPlayerEndReached handler ignores the event in webradio mode
— the whole state (mode, `is_playing`, index, radio descriptor) is unchanged,
so no advance occurs — and in playlist mode it invokes `_play_next_track`. -/
theorem end_reached_ignored_in_webradio (eng : Engine) (s : AppState) :
    (s.current_media_type = MediaType.webradio → handleEndReached eng s = s) ∧
    (s.current_media_type = MediaType.playlist →
      handleEndReached eng s = (playNextTrack eng s).1) := by
  constructor
  · intro h
    unfold handleEndReached
    rw [if_pos h]
  · intro h
    unfold handleEndReached
    rw [if_neg (by simp [h]), if_pos h]

/-- C7 witness: end-of-media during webradio leaves the radio session intact;
end-of-media during playlist playback equals a `_play_next_track` call. -/
theorem end_reached_ignored_in_webradio_witness :
    handleEndReached engOk
        ⟨[sampleTrack], -1, true, MediaType.webradio, some ⟨"R", "http://r"⟩⟩ =
      ⟨[sampleTrack], -1, true, MediaType.webradio, some ⟨"R", "http://r"⟩⟩ ∧
    handleEndReached engOk ⟨[sampleTrack], 0, true, MediaType.playlist, none⟩ =
      (playNextTrack engOk ⟨[sampleTrack], 0, true, MediaType.playlist, none⟩).1 :=
  ⟨(end_reached_ignored_in_webradio engOk
      ⟨[sampleTrack], -1, true, MediaType.webradio, some ⟨"R", "http://r"⟩⟩).1 rfl,
   (end_reached_ignored_in_webradio engOk
      ⟨[sampleTrack], 0, true, MediaType.playlist, none⟩).2 rfl⟩

/-- C2 counterexample: the GUI `Jukebox.play_next` (cited by the claim) does
not wrap: on the one-track playlist with `current_idx = 0` (the last index)
it sets `current_idx` to −1 and emits no play request, instead of
transitioning the current index to 0. -/
theorem gui_play_next_no_wrap_counterexample :
    (guiPlayNext ⟨[sampleTrack], 0⟩).1.current_idx = -1 ∧
    (guiPlayNext ⟨[sampleTrack], 0⟩).1.current_idx ≠ 0 ∧
    (guiPlayNext ⟨[sampleTrack], 0⟩).2 = none := by
  refine ⟨by decide, by decide, by decide⟩

/-- C2 (amended): only the backend `_play_next_track` wraps — in playlist
mode on a non-empty playlist at the last index, a call the engine accepts
lands on index 0, and any call keeps `-1 ≤ current_track_index < length`; the
GUI `Jukebox.play_next` does not wrap: at the last index it stops playback
and sets the sentinel `current_idx = -1`, emitting no play request. -/
theorem play_next_wraps (eng : Engine) (s : AppState) (gs : GuiPlayState) :
    (s.current_media_type = MediaType.playlist → s.playlist ≠ [] →
      s.current_track_index = (s.playlist.length : Int) - 1 →
      (playNextTrack eng s).2 = true →
      (playNextTrack eng s).1.current_track_index = 0) ∧
    (s.current_media_type = MediaType.playlist →
      -1 ≤ s.current_track_index →
      s.current_track_index < (s.playlist.length : Int) →
      -1 ≤ (playNextTrack eng s).1.current_track_index ∧
      (playNextTrack eng s).1.current_track_index < (s.playlist.length : Int)) ∧
    (gs.playlist ≠ [] → gs.current_idx = (gs.playlist.length : Int) - 1 →
      (guiPlayNext gs).1.current_idx = -1 ∧ (guiPlayNext gs).2 = none) := by
  refine ⟨?_, ?_, ?_⟩
  · intro hm hne hidx hok
    unfold playNextTrack at hok ⊢
    rw [if_neg (by simp [hm]), if_neg (by simp [List.isEmpty_iff, hne])] at hok ⊢
    dsimp only at hok ⊢
    rw [hidx, if_pos (by omega)] at hok ⊢
    exact (playAt_of_success eng s 0 hok).1
  · intro hm h1 h2
    unfold playNextTrack
    rw [if_neg (by simp [hm])]
    by_cases he : s.playlist.isEmpty
    · rw [if_pos he]
      exact ⟨h1, h2⟩
    · rw [if_neg he]
      dsimp only
      have hlen : 0 < s.playlist.length :=
        List.length_pos_iff_ne_nil.mpr (by simpa [List.isEmpty_iff] using he)
      set ni := (if (s.playlist.length : Int) ≤ s.current_track_index + 1 then 0
                 else s.current_track_index + 1) with hni
      have hbni : 0 ≤ ni ∧ ni < (s.playlist.length : Int) := by
        rw [hni]; split_ifs <;> omega
      by_cases hr : (playTrackAtIndex eng s ni).2 = true
      · have := (playAt_of_success eng s ni hr).1
        omega
      · have hf := playAt_of_fail eng s ni (by simpa using hr)
        rcases hf with ⟨-, hidx⟩
        split_ifs at hidx <;> omega
  · intro hne hidx
    unfold guiPlayNext
    rw [if_neg (by simp [List.isEmpty_iff, hne])]
    dsimp only
    have hlen : 0 < gs.playlist.length := List.length_pos_iff_ne_nil.mpr hne
    have hc : (gs.current_idx == -1) = false := by
      rw [hidx]
      simp only [beq_eq_false_iff_ne, ne_eq]
      omega
    rw [hc]
    simp only [Bool.false_eq_true, if_false]
    rw [hidx, if_pos (by omega)]
    exact ⟨rfl, rfl⟩

/-- C2 witness: the backend wraps from the last index to 0 with a cooperating
engine and stays in bounds; the GUI stops at the end of the playlist. -/
theorem play_next_wraps_witness :
    (playNextTrack engOk ⟨[sampleTrack], 0, true, MediaType.playlist, none⟩).1.current_track_index
      = 0 ∧
    (-1 ≤ (playNextTrack engOk ⟨[sampleTrack], 0, true, MediaType.playlist, none⟩).1.current_track_index ∧
      (playNextTrack engOk ⟨[sampleTrack], 0, true, MediaType.playlist, none⟩).1.current_track_index
        < (([sampleTrack] : List Track).length : Int)) ∧
    ((guiPlayNext ⟨[sampleTrack, noUrlTrack], 1⟩).1.current_idx = -1 ∧
      (guiPlayNext ⟨[sampleTrack, noUrlTrack], 1⟩).2 = none) :=
  ⟨(play_next_wraps engOk ⟨[sampleTrack], 0, true, MediaType.playlist, none⟩
      ⟨[sampleTrack, noUrlTrack], 1⟩).1 rfl (by decide) (by decide) (by decide),
   (play_next_wraps engOk ⟨[sampleTrack], 0, true, MediaType.playlist, none⟩
      ⟨[sampleTrack, noUrlTrack], 1⟩).2.1 rfl (by decide) (by decide),
   (play_next_wraps engOk ⟨[sampleTrack], 0, true, MediaType.playlist, none⟩
      ⟨[sampleTrack, noUrlTrack], 1⟩).2.2 (by decide) (by decide)⟩

/-! ## History and favorites claims -/

theorem length_filter_lt_of_exists_not {α : Type} (p : α → Bool) :
    ∀ l : List α, (∃ x ∈ l, p x = false) → (l.filter p).length < l.length := by
  intro l
  induction l with
  | nil => rintro ⟨x, hx, -⟩; cases hx
  | cons a l ih =>
    rintro ⟨x, hx, hpx⟩
    by_cases hpa : p a = true
    · rw [List.filter_cons_of_pos hpa]
      have : x ∈ l := by
        rcases List.mem_cons.mp hx with h | h
        · exact absurd (h ▸ hpa) (by simp [hpx])
        · exact h
      simpa using ih ⟨x, this, hpx⟩
    · rw [List.filter_cons_of_neg hpa]
      have := List.length_filter_le p l
      simpa using Nat.lt_succ_of_le this

theorem neq_of_beq_false {a b : PyVal} (h : PyVal.eqb a b = false) : a ≠ b := by
  intro he
  rw [he, PyVal.eqb_refl] at h
  cases h

/-- Per-operation history bound: `_add_to_history` never leaves more than
`MAX_HISTORY_SIZE` entries when it started from at most that many. -/
theorem addToHistory_length_le (h : List Track) (t : Track)
    (hb : h.length ≤ MAX_HISTORY_SIZE) :
    (addToHistory h t).length ≤ MAX_HISTORY_SIZE := by
  unfold addToHistory
  dsimp only
  split_ifs with h1 h2
  · exact hb
  · rw [List.length_take]
    omega
  · have := List.length_filter_le (fun x => !(PyVal.eqb (identOf x) (identOf t))) h
    simp only [List.length_cons, not_lt] at h2 ⊢
    exact h2

/-- C5: starting from a history within the bound, any sequence of
`_add_to_history` calls keeps the history at ≤ 50 entries; and recording a
track whose identifier already appears (tracks without an identifier are not
recorded, so the identifier is assumed truthy) removes the old entry and
puts the new track at position 0 without growing the list: the result is
`t :: rest` with `rest` strictly shorter than the old history and free of
the track's identifier. -/
theorem history_bounded_and_dedup (ts : List Track) (h : List Track) (t : Track) :
    (h.length ≤ MAX_HISTORY_SIZE →
      (ts.foldl addToHistory h).length ≤ MAX_HISTORY_SIZE) ∧
    ((identOf t).truthy = true →
      (∃ x ∈ h, identOf x = identOf t) →
      ∃ rest, addToHistory h t = t :: rest ∧ rest.length < h.length ∧
        ∀ x ∈ rest, identOf x ≠ identOf t) := by
  constructor
  · intro hb
    induction ts generalizing h with
    | nil => exact hb
    | cons a ts ih => exact ih (addToHistory h a) (addToHistory_length_le h a hb)
  · intro htr ⟨x, hx, hxid⟩
    unfold addToHistory
    dsimp only
    rw [if_neg (by simp [htr])]
    have hflt : (h.filter (fun y => !(PyVal.eqb (identOf y) (identOf t)))).length
        < h.length := by
      refine length_filter_lt_of_exists_not _ h ⟨x, hx, ?_⟩
      simp [hxid, PyVal.eqb_refl]
    have hmem : ∀ y ∈ h.filter (fun y => !(PyVal.eqb (identOf y) (identOf t))),
        identOf y ≠ identOf t := by
      intro y hy
      have := (List.mem_filter.mp hy).2
      simp only [Bool.not_eq_true'] at this
      exact neq_of_beq_false this
    split_ifs with hlong
    · refine ⟨(h.filter (fun y => !(PyVal.eqb (identOf y) (identOf t)))).take 49,
        ?_, ?_, ?_⟩
      · have h50 : MAX_HISTORY_SIZE = 49 + 1 := rfl
        rw [h50, List.take_succ_cons]
      · have := List.length_take 49
          (h.filter (fun y => !(PyVal.eqb (identOf y) (identOf t))))
        omega
      · intro y hy
        exact hmem y (List.take_subset 49 _ hy)
    · exact ⟨_, rfl, hflt, hmem⟩

/-- C5 witness: a two-entry history re-records its second entry (same
identifier): the bound holds along the two-step sequence, and the re-record
yields the track at position 0 with the old copy gone. -/
theorem history_bounded_and_dedup_witness :
    (([sampleTrack, noUrlTrack] : List Track).foldl addToHistory []).length
      ≤ MAX_HISTORY_SIZE ∧
    ∃ rest, addToHistory [noUrlTrack, sampleTrack] sampleTrack = sampleTrack :: rest ∧
      rest.length < ([noUrlTrack, sampleTrack] : List Track).length ∧
      ∀ x ∈ rest, identOf x ≠ identOf sampleTrack :=
  ⟨(history_bounded_and_dedup [sampleTrack, noUrlTrack] [] sampleTrack).1 (by decide),
   (history_bounded_and_dedup [] [noUrlTrack, sampleTrack] sampleTrack).2 (by decide)
     ⟨sampleTrack, by simp, rfl⟩⟩

/-- C6: `add_to_favorites` preserves distinctness of canonical identifiers
(no two favorites entries ever share one); an entry whose identifier is
already present is not added (the list is returned unchanged, with a
notice); a new truthy identifier is appended. -/
theorem favorites_identifier_distinct (favs : List Track) (cur : Option Track) :
    (favs.Pairwise (fun a b => identOf a ≠ identOf b) →
      (addToFavorites favs cur).Pairwise (fun a b => identOf a ≠ identOf b)) ∧
    (∀ t, cur = some t → (∃ f ∈ favs, identOf f = identOf t) →
      addToFavorites favs cur = favs) ∧
    (∀ t, cur = some t → (identOf t).truthy = true →
      (∀ f ∈ favs, identOf f ≠ identOf t) →
      addToFavorites favs cur = favs ++ [t]) := by
  refine ⟨?_, ?_, ?_⟩
  · intro hpw
    unfold addToFavorites
    cases cur with
    | none => exact hpw
    | some t =>
      dsimp only
      split_ifs with h1 h2
      · exact hpw
      · exact hpw
      · rw [List.pairwise_append]
        refine ⟨hpw, by simp, ?_⟩
        intro a ha b hb
        simp only [List.mem_singleton] at hb
        subst hb
        simp only [List.any_eq_true, not_exists, not_and] at h2
        intro he
        have := h2 a ha
        rw [he, PyVal.eqb_refl] at this
        exact this rfl
  · rintro t rfl ⟨f, hf, hfid⟩
    unfold addToFavorites
    dsimp only
    split_ifs with h1 h2
    · rfl
    · rfl
    · exfalso
      apply h2
      refine List.any_eq_true.mpr ⟨f, hf, ?_⟩
      dsimp only
      rw [hfid]
      exact PyVal.eqb_refl _
  · rintro t rfl htr hall
    unfold addToFavorites
    dsimp only
    rw [if_neg (by simp [htr]), if_neg ?_]
    simp only [List.any_eq_true, not_exists, not_and]
    intro f hf hbeq
    exact hall f hf (PyVal.eq_of_eqb hbeq)

/-- C6 witness: adding a fresh track appends it; re-adding it is a no-op;
distinctness is preserved through both. -/
theorem favorites_identifier_distinct_witness :
    addToFavorites [noUrlTrack] (some sampleTrack) = [noUrlTrack, sampleTrack] ∧
    addToFavorites [noUrlTrack, sampleTrack] (some sampleTrack) =
      [noUrlTrack, sampleTrack] ∧
    (addToFavorites [noUrlTrack] (some sampleTrack)).Pairwise
      (fun a b => identOf a ≠ identOf b) :=
  ⟨(favorites_identifier_distinct [noUrlTrack] (some sampleTrack)).2.2 sampleTrack rfl
      (by decide) (by intro f hf; fin_cases hf; decide),
   (favorites_identifier_distinct [noUrlTrack, sampleTrack] (some sampleTrack)).2.1
      sampleTrack rfl ⟨sampleTrack, by simp, rfl⟩,
   (favorites_identifier_distinct [noUrlTrack] (some sampleTrack)).1
      (List.pairwise_singleton _ _)⟩

/-! ## Search single-flight claim -/

/-- C4: while `is_searching` is set, `search_song` never starts a new worker
(the request is rejected whatever the stale worker slot holds); the finalize
slot `_on_search_worker_finished` — the one slot connected to a worker's
`finished` signal, run once when that signal fires — always clears the flag;
and a subsequent ordinary request (non-empty query, no cached-download fast
path) after the finalize hook starts a new task and re-sets the flag. -/
theorem search_single_flight (env : SearchEnv) (s : SearchState) (b : Bool) :
    (s.is_searching = true → (searchSong env s).2 = false) ∧
    ((onSearchWorkerFinished s b).is_searching = false) ∧
    (env.queryEmpty = false → env.cacheHit = false →
      (searchSong env (onSearchWorkerFinished s b)).2 = true ∧
      (searchSong env (onSearchWorkerFinished s b)).1.is_searching = true) := by
  refine ⟨?_, rfl, ?_⟩
  · intro hs
    unfold searchSong
    by_cases h1 : env.queryEmpty = true
    · rw [if_pos h1]
    · rw [if_neg h1, if_pos hs]
      cases s.yt_search_worker with
      | none => rfl
      | some w =>
        dsimp only
        split_ifs <;> rfl
  · intro hq hc
    unfold searchSong onSearchWorkerFinished
    dsimp only
    rw [hq, hc]
    exact ⟨rfl, rfl⟩

/-- C4 witness: with a busy state the request is rejected; after the finalize
hook the same request starts a worker and re-sets the flag. -/
theorem search_single_flight_witness :
    (searchSong ⟨false, false⟩
        ⟨true, some ⟨true, false⟩⟩).2 = false ∧
    (onSearchWorkerFinished ⟨true, some ⟨true, false⟩⟩ true).is_searching = false ∧
    ((searchSong ⟨false, false⟩
        (onSearchWorkerFinished ⟨true, some ⟨true, false⟩⟩ true)).2 = true ∧
      (searchSong ⟨false, false⟩
        (onSearchWorkerFinished ⟨true, some ⟨true, false⟩⟩ true)).1.is_searching = true) :=
  ⟨(search_single_flight ⟨false, false⟩ ⟨true, some ⟨true, false⟩⟩ true).1 rfl,
   (search_single_flight ⟨false, false⟩ ⟨true, some ⟨true, false⟩⟩ true).2.1,
   (search_single_flight ⟨false, false⟩ ⟨true, some ⟨true, false⟩⟩ true).2.2 rfl rfl⟩

/-! ## Persistence claims -/

/-- A filesystem oracle on which no path exists. -/
def fsNone : FS :=
  { isFile := fun _ => false, pathExists := fun _ => false,
    resolve := fun p => p, stem := fun p => p, suffixLower := fun _ => "" }

/-- C8: loading a persisted track list returns `[]` — and does not raise —
when the file is absent, blank, or malformed JSON; and with the
`Track.from_dict` normalizer supplied, every element of the returned list
has a truthy title or locator, i.e. elements producing an invalid track
(neither title nor locator) are skipped.  (The embedded `loadJsonTracks` is
total, mirroring the swallow-all exception handlers of `load_json`.) -/
theorem load_json_tolerant_and_filters (fs : FS) (xs : List PyVal) :
    loadJsonTracks fs .absent = [] ∧
    loadJsonTracks fs .empty = [] ∧
    loadJsonTracks fs .malformed = [] ∧
    (∀ t ∈ loadJsonTracks fs (.parsed (.listV xs)),
      t.title.truthy = true ∨ t.url.truthy = true) := by
  refine ⟨rfl, rfl, rfl, ?_⟩
  intro t ht
  unfold loadJsonTracks at ht
  dsimp only at ht
  obtain ⟨a, -, ha⟩ := List.mem_filterMap.mp ht
  revert ha
  cases fromDict fs a with
  | error e => intro h; cases h
  | ok t0 =>
    dsimp only
    split_ifs with h
    · intro he
      cases he
      simpa [Bool.or_eq_true] using h
    · intro h; cases h

/-- C8 witness: a parsed one-element list (legacy plain-string record) loads
to a track that has a truthy title. -/
theorem load_json_tolerant_and_filters_witness :
    loadJsonTracks fsNone .absent = [] ∧
    (⟨.strV "song", .strV "song", .noneV, .intV 0, .boolV false, .strV "song"⟩ : Track)
      ∈ loadJsonTracks fsNone (.parsed (.listV [.strV "song"])) ∧
    ((⟨.strV "song", .strV "song", .noneV, .intV 0, .boolV false, .strV "song"⟩ : Track).title.truthy
        = true ∨
      (⟨.strV "song", .strV "song", .noneV, .intV 0, .boolV false, .strV "song"⟩ : Track).url.truthy
        = true) :=
  ⟨(load_json_tolerant_and_filters fsNone []).1,
   by decide,
   (load_json_tolerant_and_filters fsNone [.strV "song"]).2.2.2
     ⟨.strV "song", .strV "song", .noneV, .intV 0, .boolV false, .strV "song"⟩ (by decide)⟩

/-- C10: `Track.from_dict` on a list of fewer than 5 elements falls through
every migration branch into the final `else` and returns the sentinel
invalid track (`url = None`, title `"Invalid Track Data"`) — the same result
as for inputs that are not a string, list, or mapping (null, booleans,
numbers). -/
theorem from_dict_short_list_is_invalid (fs : FS) (xs : List PyVal) (b : Bool)
    (n : Int) (h : xs.length < 5) :
    fromDict fs (.listV xs) = .ok invalidTrack ∧
    fromDict fs .noneV = .ok invalidTrack ∧
    fromDict fs (.boolV b) = .ok invalidTrack ∧
    fromDict fs (.intV n) = .ok invalidTrack := by
  refine ⟨?_, rfl, rfl, rfl⟩
  simp only [fromDict]
  rw [if_neg (by omega)]

/-- C10 witness: the two-element legacy list collapses to the sentinel, as do
null and a number. -/
theorem from_dict_short_list_is_invalid_witness :
    fromDict fsNone (.listV [.strV "u", .strV "t"]) = .ok invalidTrack ∧
    fromDict fsNone .noneV = .ok invalidTrack ∧
    fromDict fsNone (.boolV false) = .ok invalidTrack ∧
    fromDict fsNone (.intV 3) = .ok invalidTrack :=
  from_dict_short_list_is_invalid fsNone [.strV "u", .strV "t"] false 3 (by decide)

end Jukebox
